import Mathlib

/-!
Verification of the Hivee core against its specification.

Shallow embedding of:
* `contracts/src/AgentEscrow.sol` (contracts `AgentEscrow` and `AgentIdentity`):
  addresses are modelled as `Nat` (0 = `address(0)`), `uint256` as `Nat`
  (Solidity 0.8 reverts on overflow/underflow, so a successful execution never
  wraps; reverts are modelled as `Except.error`), `block.timestamp` fields are
  omitted (no claim mentions them).
* `backend/src/services/loan.service.ts`, `task.service.ts`,
  `zkProof.service.ts`, `scanner.service.ts`, `agentProcessor.service.ts`:
  Prisma `Decimal` / JS numbers are modelled as `ℚ`, thrown exceptions as
  `Except.error` or explicit success flags, database rows as plain structures.
-/

namespace Hivee

/-! ## AgentEscrow.sol -/

/-- The `ActiveLoan` struct of `AgentEscrow.sol` (field `createdAt`
(`block.timestamp`) omitted; no claim concerns it). -/
structure ActiveLoan where
  lenderAgent : Nat
  token : Nat
  principal : Nat
  totalRepayment : Nat
  repaidAmount : Nat
  isActive : Bool
  deriving Repr, DecidableEq

/-- The zero-initialised `currentLoan` of a freshly deployed escrow. -/
def ActiveLoan.empty : ActiveLoan :=
  { lenderAgent := 0, token := 0, principal := 0, totalRepayment := 0
    repaidAmount := 0, isActive := false }

/-- Mutable state of one `AgentEscrow` contract together with the immutable
`platformFeeRate` (basis points).  The other immutables (`borrowerAgent`,
`platformAddress`, `x402Protocol`, `agentIdentityId`) only pick transfer
recipients and are irrelevant to the claims. -/
structure EscrowState where
  platformFeeRate : Nat
  currentLoan : ActiveLoan
  deriving Repr, DecidableEq

/-- The `AgentEscrow` constructor: requires `_platformFeeRate <= 1000`. -/
def mkEscrow (platformFeeRate : Nat) : Except String EscrowState :=
  if 1000 < platformFeeRate then .error "Fee rate too high"
  else .ok { platformFeeRate := platformFeeRate, currentLoan := ActiveLoan.empty }

/-- `AgentEscrow.registerLoan`: rejects while a loan is active, then installs a
fresh loan with `repaidAmount = 0` and `isActive = true`. -/
def registerLoan (s : EscrowState) (lenderAgent token principal totalRepayment : Nat) :
    Except String EscrowState :=
  if s.currentLoan.isActive = true then .error "Loan already active"
  else if lenderAgent = 0 then .error "Invalid lender address"
  else if token = 0 then .error "Invalid token address"
  else if totalRepayment < principal then .error "Invalid repayment amount"
  else .ok { s with currentLoan :=
    { lenderAgent := lenderAgent, token := token, principal := principal
      totalRepayment := totalRepayment, repaidAmount := 0, isActive := true } }

/-- The three amounts distributed by `_distributePayment`
(`borrowerAmount` is the agent's share). -/
structure Distribution where
  lenderAmount : Nat
  platformFee : Nat
  borrowerAmount : Nat
  deriving Repr, DecidableEq

/-- `AgentEscrow._distributePayment`: platform fee by truncating division, then
loan repayment capped at the remaining debt, remainder to the borrower agent.
The token transfers themselves move exactly the returned amounts and do not
touch the loan state, so they are not modelled. -/
def distributePayment (s : EscrowState) (token amount : Nat) :
    Distribution × EscrowState :=
  let platformFee := amount * s.platformFeeRate / 10000
  let remainingAmount := amount - platformFee
  if s.currentLoan.isActive = true ∧ s.currentLoan.token = token then
    let remainingDebt := s.currentLoan.totalRepayment - s.currentLoan.repaidAmount
    if 0 < remainingDebt then
      let lenderAmount := if remainingDebt < remainingAmount then remainingDebt else remainingAmount
      let borrowerAmount := remainingAmount - lenderAmount
      let newRepaid := s.currentLoan.repaidAmount + lenderAmount
      let newLoan :=
        if s.currentLoan.totalRepayment ≤ newRepaid then
          { s.currentLoan with repaidAmount := newRepaid, isActive := false }
        else
          { s.currentLoan with repaidAmount := newRepaid }
      ({ lenderAmount := lenderAmount, platformFee := platformFee
         borrowerAmount := borrowerAmount },
       { s with currentLoan := newLoan })
    else
      ({ lenderAmount := 0, platformFee := platformFee
         borrowerAmount := remainingAmount }, s)
  else
    ({ lenderAmount := 0, platformFee := platformFee
       borrowerAmount := remainingAmount }, s)

/-- `AgentEscrow.receivePayment`: requires `amount > 0`, then distributes. -/
def receivePayment (s : EscrowState) (token amount : Nat) :
    Except String (Distribution × EscrowState) :=
  if amount = 0 then .error "Invalid amount"
  else .ok (distributePayment s token amount)

/-- One successful `receivePayment` call viewed as a state transformer
(a reverted call leaves the state unchanged). -/
def payStep (s : EscrowState) (p : Nat × Nat) : EscrowState :=
  match receivePayment s p.1 p.2 with
  | .ok (_, s') => s'
  | .error _ => s

/-- A sequence of `receivePayment` calls `(token, amount)`. -/
def applyPayments (s : EscrowState) (ps : List (Nat × Nat)) : EscrowState :=
  ps.foldl payStep s

/-- `registerLoan` viewed as a state transformer: a reverted call leaves the
contract state unchanged. -/
def tryRegisterLoan (s : EscrowState) (lenderAgent token principal totalRepayment : Nat) :
    EscrowState :=
  match registerLoan s lenderAgent token principal totalRepayment with
  | .ok s' => s'
  | .error _ => s

/-- One successful external state-changing call on the escrow. -/
inductive EscrowStep : EscrowState → EscrowState → Prop where
  | register (s s' : EscrowState) (lenderAgent token principal totalRepayment : Nat)
      (h : registerLoan s lenderAgent token principal totalRepayment = .ok s') :
      EscrowStep s s'
  | pay (s : EscrowState) (token amount : Nat) (d : Distribution) (s' : EscrowState)
      (h : receivePayment s token amount = .ok (d, s')) : EscrowStep s s'

/-- Escrow states reachable from a deployment through successful calls. -/
inductive EscrowReachable : EscrowState → Prop where
  | init (feeRate : Nat) (s : EscrowState) (h : mkEscrow feeRate = .ok s) :
      EscrowReachable s
  | step (s s' : EscrowState) (hs : EscrowReachable s) (h : EscrowStep s s') :
      EscrowReachable s'

/-- Number of active loans held by the escrow: it stores a single
`currentLoan` slot, so this is `1` or `0`. -/
def activeLoanCount (s : EscrowState) : Nat :=
  if s.currentLoan.isActive = true then 1 else 0

/-- Lifecycle invariant for a registered loan with total repayment `total`:
the stored total never changes, the repaid amount never exceeds it, and the
loan is inactive exactly when it is fully repaid. -/
def LoanInv (total : Nat) (s : EscrowState) : Prop :=
  s.currentLoan.totalRepayment = total
  ∧ s.currentLoan.repaidAmount ≤ total
  ∧ (s.currentLoan.isActive = false ↔ s.currentLoan.repaidAmount = total)

/-! ## AgentIdentity.sol -/

/-- The `AgentProfile` struct of `AgentIdentity.sol` (`createdAt`
(`block.timestamp`) omitted; no claim concerns it). -/
structure AgentProfile where
  owner : Nat
  agentAddress : Nat
  creditScore : Nat
  totalLoans : Nat
  successfulRepayments : Nat
  failedRepayments : Nat
  isActive : Bool
  deriving Repr, DecidableEq

/-- State of the `AgentIdentity` contract: the token counter, the
`agents` mapping (tokenId → profile) and the `agentToTokenId` mapping
(address → tokenId, where the Solidity mapping default `0` means
"not registered").  Mappings are association lists with the most recent
binding first.  ERC-721 ownership bookkeeping (`_safeMint`) is not modelled:
no claim concerns token transfers, and minted ids are fresh because
`_nextTokenId` only increases. -/
structure IdentityState where
  nextTokenId : Nat
  agents : List (Nat × AgentProfile)
  agentToTokenId : List (Nat × Nat)
  deriving Repr, DecidableEq

/-- The `AgentIdentity` constructor: `_nextTokenId = 1`, empty mappings. -/
def mkIdentity : IdentityState :=
  { nextTokenId := 1, agents := [], agentToTokenId := [] }

/-- Reading the `agentToTokenId` mapping, with the Solidity default `0`. -/
def lookupTokenId (s : IdentityState) (agentAddress : Nat) : Nat :=
  match s.agentToTokenId.lookup agentAddress with
  | some t => t
  | none => 0

/-- `AgentIdentity.registerAgent` (caller = `msg.sender`): rejects the zero
address and an already-registered address, then mints the next token id and
stores a fresh profile with credit score 500, zero counters, `isActive`. -/
def registerAgent (s : IdentityState) (caller agentAddress : Nat) :
    Except String (Nat × IdentityState) :=
  if agentAddress = 0 then .error "Invalid agent address"
  else if lookupTokenId s agentAddress ≠ 0 then .error "Agent already registered"
  else
    let tokenId := s.nextTokenId
    .ok (tokenId,
      { nextTokenId := tokenId + 1
        agents := (tokenId,
          { owner := caller, agentAddress := agentAddress, creditScore := 500
            totalLoans := 0, successfulRepayments := 0, failedRepayments := 0
            isActive := true }) :: s.agents
        agentToTokenId := (agentAddress, tokenId) :: s.agentToTokenId })

/-- `AgentIdentity.recordLoanOutcome`, acting on the profile of an existing
agent (the `authorizedUpdaters` and existence checks guard entry and do not
change the update itself). -/
def recordLoanOutcome (p : AgentProfile) (successful : Bool) : AgentProfile :=
  let p1 := { p with totalLoans := p.totalLoans + 1 }
  if successful then
    { p1 with successfulRepayments := p1.successfulRepayments + 1
              creditScore := min 1000 (p1.creditScore + 20) }
  else
    { p1 with failedRepayments := p1.failedRepayments + 1
              creditScore := if 50 < p1.creditScore then p1.creditScore - 50 else 0 }

/-! ## backend/src/services/loan.service.ts -/

/-- A row of the Prisma `Lender` table, as read by `findCompatibleLender`
(Prisma `Decimal` columns modelled as `ℚ`). -/
structure Lender where
  id : Nat
  maxLoanAmount : ℚ
  interestRate : ℚ
  minCreditScore : ℚ
  availableFunds : ℚ
  isActive : Bool
  deriving DecidableEq

/-- The `where` filter of `LoanService.findCompatibleLender`. -/
def lenderCompatible (amount creditScore : ℚ) (l : Lender) : Bool :=
  l.isActive && decide (l.minCreditScore ≤ creditScore)
    && decide (amount ≤ l.maxLoanAmount) && decide (amount ≤ l.availableFunds)

/-- `LoanService.findCompatibleLender`: filter the lenders by the
compatibility predicate, order by ascending `interestRate`, take the first
(`List.argmin` returns the first element with minimal key). -/
def findCompatibleLender (lenders : List Lender) (amount creditScore : ℚ) :
    Option Lender :=
  (lenders.filter (lenderCompatible amount creditScore)).argmin Lender.interestRate

/-- Loan status strings used by the backend. -/
inductive LoanStatus where
  | PENDING | REQUESTED | APPROVED | DISBURSED | REPAID | REJECTED | DEFAULTED
  deriving Repr, DecidableEq

/-- The Prisma `Loan` row created by `requestLoanAutomatically` (fields not
set at creation omitted). -/
structure Loan where
  borrowerAgentId : Nat
  lenderAgentId : Option Nat
  principal : ℚ
  interestRate : Option ℚ
  expectedRepayment : Option ℚ
  status : LoanStatus
  deriving DecidableEq

/-- `LoanService.requestLoanAutomatically`: match a lender; on a match create
a REQUESTED loan with `expectedRepayment = amount + amount * interestRate /
10000` (the rate is in basis points); with no match create a PENDING loan
with no lender, no rate and no expected repayment.  The follow-up on-chain
submission cannot fail the call (its errors are caught and logged). -/
def requestLoanAutomatically (lenders : List Lender) (agentId : Nat)
    (amount creditScore : ℚ) : Loan :=
  match findCompatibleLender lenders amount creditScore with
  | some l =>
      let interestAmount := amount * l.interestRate / 10000
      { borrowerAgentId := agentId, lenderAgentId := some l.id
        principal := amount, interestRate := some l.interestRate
        expectedRepayment := some (amount + interestAmount)
        status := .REQUESTED }
  | none =>
      { borrowerAgentId := agentId, lenderAgentId := none
        principal := amount, interestRate := none
        expectedRepayment := none, status := .PENDING }

/-! ## backend/src/services/scanner.service.ts and agentProcessor.service.ts -/

/-- Finding severities (`'high' | 'medium' | 'low'` in `types/index.ts`). -/
inductive Severity where
  | high | medium | low
  deriving Repr, DecidableEq

/-- A `ScanFinding` (`types/index.ts`); the identifying string fields do not
influence control flow and are dropped. -/
structure ScanFinding where
  severity : Severity
  deriving Repr, DecidableEq

/-- A `ScanResult` (`types/index.ts`). -/
structure ScanResult where
  scanType : String
  passed : Bool
  findings : List ScanFinding
  severity : Severity
  deriving Repr, DecidableEq

/-- `ScannerService.getOverallSeverity`. -/
def getOverallSeverity (findings : List ScanFinding) : Severity :=
  if findings.any (fun f => f.severity == .high) then .high
  else if findings.any (fun f => f.severity == .medium) then .medium
  else .low

/-- How every scanner in `scanner.service.ts` (bandit/ESLint/semgrep/trivy)
assembles its `ScanResult` from the findings it mapped:
`passed = ¬∃ high finding`, `severity = getOverallSeverity findings`. -/
def mkScanResult (scanType : String) (findings : List ScanFinding) : ScanResult :=
  { scanType := scanType
    passed := !(findings.any (fun f => f.severity == .high))
    findings := findings
    severity := getOverallSeverity findings }

/-- `ScannerService.areScansAcceptable`: fail iff some result has overall
high severity and did not pass. -/
def areScansAcceptable (results : List ScanResult) : Bool :=
  !(results.any (fun r => r.severity == .high && !r.passed))

/-- Agent status strings of the admission pipeline. -/
inductive AgentStatus where
  | PENDING | SCANNING | SCAN_FAILED | MODIFYING | DEPLOYING | ACTIVE | PAUSED | FAILED
  deriving Repr, DecidableEq

/-- The stages of `AgentProcessorService.processAgent`, in source order. -/
inductive PipelineStage where
  | scanStage | registerStage | modifyStage | deployStage | containerScanStage
  deriving Repr, DecidableEq

/-- `AgentProcessorService.processAgent`, abstracted over its external
effects: `codeScanFindings` are the findings reported by each code scanner
(`scanAgentCode`), the `Ok` flags tell whether on-chain registration, code
modification and container build/run complete without throwing, and
`containerFindings` are the (already severity-mapped) findings of the
container scan.  Returns the final agent status and the list of stages that
were entered.  A thrown error in a stage is caught by `processAgent` and
sets status FAILED. -/
def processAgent (codeScanFindings : List (List ScanFinding))
    (registerOk modifyOk deployOk : Bool)
    (containerFindings : List ScanFinding) : AgentStatus × List PipelineStage :=
  let results := codeScanFindings.map (mkScanResult "code")
  if areScansAcceptable results = false then
    (.SCAN_FAILED, [.scanStage])
  else if registerOk = false then
    (.FAILED, [.scanStage, .registerStage])
  else if modifyOk = false then
    (.FAILED, [.scanStage, .registerStage, .modifyStage])
  else if deployOk = false then
    (.FAILED, [.scanStage, .registerStage, .modifyStage, .deployStage])
  else if (mkScanResult "trivy" containerFindings).passed = false then
    (.FAILED, [.scanStage, .registerStage, .modifyStage, .deployStage,
      .containerScanStage])
  else
    (.ACTIVE, [.scanStage, .registerStage, .modifyStage, .deployStage,
      .containerScanStage])

/-! ## backend/src/services/zkProof.service.ts and task.service.ts -/

/-- The `proofInputs` record assembled by `generateSimplifiedProof`
(string hashes and the random nonce/timestamp do not influence any claim and
are dropped; the two amounts are scaled to 6-decimal integers exactly as in
the source). -/
structure ProofInputs where
  agentAddress : String
  expectedPayment : ℤ
  minLoanAmount : ℤ
  deriving DecidableEq

/-- The result of `generateSimplifiedProof`: it is a total function — it
hashes its inputs and never checks `expectedPayment` against
`minLoanAmount`, so generation succeeds for every input. -/
structure SimplifiedProof where
  inputs : ProofInputs
  publicExpectedPayment : ℚ
  publicMinLoanAmount : ℚ
  verifiable : Bool
  deriving DecidableEq

/-- `ZKProofService.generateSimplifiedProof` (MVP path). -/
def generateSimplifiedProof (agentAddress : String)
    (expectedPayment minLoanAmount : ℚ) : SimplifiedProof :=
  { inputs :=
      { agentAddress := agentAddress
        expectedPayment := ⌊expectedPayment * 1000000⌋
        minLoanAmount := ⌊minLoanAmount * 1000000⌋ }
    publicExpectedPayment := expectedPayment
    publicMinLoanAmount := minLoanAmount
    verifiable := true }

/-- `ZKProofService.useRealZKProof` — `false` in the source. -/
def useRealZKProof : Bool := false

/-- The constraint of the circom circuit
`backend/zk-circuits/task_proof.circom` (Constraint 1): the
`GreaterEqThan(64)` comparator is applied to the public inputs
`expectedPayment` and `minLoanAmount` (6-decimal scaled integers) and its
output is constrained to 1, so a witness — and hence a real ZK proof —
exists exactly when `expectedPayment ≥ minLoanAmount`.  This circuit is only
used on the `useRealZKProof = true` path, which the backend never takes. -/
def taskProofCircuitAccepts (expectedPayment minLoanAmount : ℤ) : Bool :=
  decide (minLoanAmount ≤ expectedPayment)

/-- `ZKProofService.generateTaskProof`: branches on `useRealZKProof`, which
is `false`, so the simplified path is always taken. -/
def generateTaskProof (agentAddress : String)
    (expectedPayment minLoanAmount : ℚ) : SimplifiedProof :=
  generateSimplifiedProof agentAddress expectedPayment minLoanAmount

/-- Task status strings used by the backend. -/
inductive TaskStatus where
  | PENDING | AWAITING_FUNDS | FUNDED | IN_PROGRESS | COMPLETED | PAID
  | FAILED | CANCELLED
  deriving Repr, DecidableEq

/-- `TaskService.generateZKProofAndProcessTask` together with
`requestLoanForTask`, viewed as the status reached by a freshly created task
(status PENDING) on the asynchronous processing path.  Proof generation is
`generateTaskProof` (total, never throws on the threshold), so the catch
branch that sets FAILED is reached only when the loan request throws
(`loanRequestOk = false`).  `requiresLoan` is computed at creation as
`amount > loanThreshold`. -/
def processTaskAfterCreation (amount loanThreshold : ℚ)
    (loanRequestOk : Bool) : TaskStatus :=
  if loanThreshold < amount then
    if loanRequestOk then .AWAITING_FUNDS else .FAILED
  else .FUNDED

/-- `TaskService.updateTaskStatus`: writes the requested status with no
validation of the current one. -/
def updateTaskStatus (current requested : TaskStatus) : TaskStatus :=
  requested

/-- `TaskService.completeTask`: writes COMPLETED unconditionally. -/
def completeTask (current : TaskStatus) : TaskStatus :=
  .COMPLETED

/-- `TaskService.markTaskAsPaid`: writes PAID unconditionally. -/
def markTaskAsPaid (current : TaskStatus) : TaskStatus :=
  .PAID

/-- `TaskService.onLoanDisbursed`: writes FUNDED on the task linked to the
disbursed loan. -/
def onLoanDisbursed (current : TaskStatus) : TaskStatus :=
  .FUNDED

/-- Terminal task statuses (spec §3: COMPLETED/PAID/FAILED/CANCELLED are
terminal; COMPLETED still moves to PAID inside the graph, so for the purpose
of FAILED/CANCELLED reachability the blocked states are the other three). -/
def taskTerminal : TaskStatus → Bool
  | .PAID | .FAILED | .CANCELLED => true
  | _ => false

/-- Modelled from the spec (§4.2): the claimed task status transition graph
`PENDING → (AWAITING_FUNDS → FUNDED | FUNDED) → IN_PROGRESS → COMPLETED →
PAID`, with FAILED and CANCELLED reachable from any non-terminal state.
Used to compare the code's behaviour against the claimed graph. -/
def specAllowedTransition : TaskStatus → TaskStatus → Bool
  | .PENDING, .AWAITING_FUNDS => true
  | .PENDING, .FUNDED => true
  | .AWAITING_FUNDS, .FUNDED => true
  | .FUNDED, .IN_PROGRESS => true
  | .IN_PROGRESS, .COMPLETED => true
  | .COMPLETED, .PAID => true
  | s, .FAILED => !(taskTerminal s)
  | s, .CANCELLED => !(taskTerminal s)
  | _, _ => false

/-! ### Theorems about the identity and reputation contract -/

/-- One `recordLoanOutcome` call keeps the credit score within the 0–1000
band whenever it starts there. -/
theorem recordLoanOutcome_score_le (p : AgentProfile) (b : Bool)
    (h : p.creditScore ≤ 1000) : (recordLoanOutcome p b).creditScore ≤ 1000 := by
  unfold recordLoanOutcome
  cases b <;> dsimp only <;> split_ifs <;> (try dsimp only) <;> omega

/-- Any sequence of `recordLoanOutcome` calls keeps the credit score within
the 0–1000 band whenever it starts there. -/
theorem recordLoanOutcome_fold_score_le (p : AgentProfile) (bs : List Bool)
    (h : p.creditScore ≤ 1000) :
    (bs.foldl recordLoanOutcome p).creditScore ≤ 1000 := by
  induction bs generalizing p with
  | nil => exact h
  | cons b bs ih => exact ih (recordLoanOutcome p b) (recordLoanOutcome_score_le p b h)

/-- C4: `recordLoanOutcome` increments `totalLoans`; on success it increments
`successfulRepayments` and sets the score to `min 1000 (score + 20)`; on
failure it increments `failedRepayments` and sets the score to
`max 0 (score - 50)`; and the score stays in `[0, 1000]` (starting from any
in-band value, in particular from the registration value 500) under any
number of consecutive successes or failures. -/
theorem recordLoanOutcome_spec (p : AgentProfile) (b : Bool)
    (hscore : p.creditScore ≤ 1000) :
    (recordLoanOutcome p b).totalLoans = p.totalLoans + 1
    ∧ (b = true →
        (recordLoanOutcome p b).successfulRepayments = p.successfulRepayments + 1
        ∧ (recordLoanOutcome p b).failedRepayments = p.failedRepayments
        ∧ (recordLoanOutcome p b).creditScore = min 1000 (p.creditScore + 20))
    ∧ (b = false →
        (recordLoanOutcome p b).failedRepayments = p.failedRepayments + 1
        ∧ (recordLoanOutcome p b).successfulRepayments = p.successfulRepayments
        ∧ ((recordLoanOutcome p b).creditScore : ℤ)
            = max 0 ((p.creditScore : ℤ) - 50))
    ∧ (0 ≤ (recordLoanOutcome p b).creditScore
        ∧ (recordLoanOutcome p b).creditScore ≤ 1000)
    ∧ (∀ bs : List Bool, (bs.foldl recordLoanOutcome p).creditScore ≤ 1000) := by
  refine ⟨?_, ?_, ?_, ⟨Nat.zero_le _, recordLoanOutcome_score_le p b hscore⟩,
    fun bs => recordLoanOutcome_fold_score_le p bs hscore⟩
  · unfold recordLoanOutcome
    cases b <;> dsimp only <;> split_ifs <;> rfl
  · intro hb
    subst hb
    unfold recordLoanOutcome
    refine ⟨rfl, rfl, rfl⟩
  · intro hb
    subst hb
    unfold recordLoanOutcome
    simp only [Bool.false_eq_true, if_false]
    split_ifs <;> exact ⟨by simp, by simp, by omega⟩

/-- Witness for C4 (Scenarios C and D of the spec): from score 980 a success
clamps to 1000; from score 500 a failure gives 450; ten consecutive failures
from 500 stay in band. -/
theorem recordLoanOutcome_spec_witness :
    (⟨0, 42, 980, 3, 3, 0, true⟩ : AgentProfile).creditScore ≤ 1000
    ∧ (recordLoanOutcome ⟨0, 42, 980, 3, 3, 0, true⟩ true).creditScore = 1000
    ∧ (recordLoanOutcome ⟨0, 42, 980, 3, 3, 0, true⟩ true).totalLoans = 4
    ∧ (recordLoanOutcome ⟨0, 42, 500, 0, 0, 0, true⟩ false).creditScore = 450
    ∧ (List.replicate 10 false |>.foldl recordLoanOutcome
        ⟨0, 42, 500, 0, 0, 0, true⟩).creditScore ≤ 1000 := by
  have h := recordLoanOutcome_spec ⟨0, 42, 980, 3, 3, 0, true⟩ true (by norm_num)
  have h2 := recordLoanOutcome_spec ⟨0, 42, 500, 0, 0, 0, true⟩ false (by norm_num)
  exact ⟨by norm_num, by decide, h.1, by decide,
    (h2.2.2.2.2) (List.replicate 10 false)⟩

/-- C10: a successful `registerAgent` stores a profile with credit score 500,
zero loan counters and `isActive = true` under the minted token id, records
the address → token id binding, and a second registration of the same agent
address is rejected with "Agent already registered" (so there is at most one
identity per address).  The hypothesis `1 ≤ nextTokenId` is established by
the constructor (`_nextTokenId = 1`) and preserved by minting. -/
theorem registerAgent_spec (s : IdentityState) (caller agentAddress tokenId : Nat)
    (s' : IdentityState) (hnext : 1 ≤ s.nextTokenId)
    (h : registerAgent s caller agentAddress = .ok (tokenId, s')) :
    tokenId = s.nextTokenId
    ∧ s'.agents.lookup tokenId
        = some ⟨caller, agentAddress, 500, 0, 0, 0, true⟩
    ∧ lookupTokenId s' agentAddress = tokenId
    ∧ s'.nextTokenId = tokenId + 1
    ∧ (∀ caller2, registerAgent s' caller2 agentAddress
        = .error "Agent already registered") := by
  by_cases h0 : agentAddress = 0
  · unfold registerAgent at h
    rw [if_pos h0] at h
    exact absurd h (by simp)
  by_cases hreg : lookupTokenId s agentAddress ≠ 0
  · unfold registerAgent at h
    rw [if_neg h0, if_pos hreg] at h
    exact absurd h (by simp)
  unfold registerAgent at h
  rw [if_neg h0, if_neg hreg] at h
  simp only [Except.ok.injEq, Prod.mk.injEq] at h
  obtain ⟨ht, hs'⟩ := h
  subst ht
  subst hs'
  refine ⟨rfl, ?_, ?_, rfl, ?_⟩
  · simp [List.lookup]
  · simp [lookupTokenId, List.lookup]
  · intro caller2
    unfold registerAgent
    rw [if_neg h0]
    have hfound : lookupTokenId
        { nextTokenId := s.nextTokenId + 1
          agents := (s.nextTokenId,
            { owner := caller, agentAddress := agentAddress, creditScore := 500
              totalLoans := 0, successfulRepayments := 0, failedRepayments := 0
              isActive := true }) :: s.agents
          agentToTokenId := (agentAddress, s.nextTokenId) :: s.agentToTokenId }
        agentAddress = s.nextTokenId := by
      simp [lookupTokenId, List.lookup]
    rw [if_pos (by rw [hfound]; omega)]

/-- Witness for C10: registering address 42 in a fresh identity contract
mints token 1 with the initial profile, and a second registration of 42 is
rejected. -/
theorem registerAgent_spec_witness :
    1 ≤ mkIdentity.nextTokenId
    ∧ registerAgent mkIdentity 7 42
        = .ok (1, ⟨2, [(1, ⟨7, 42, 500, 0, 0, 0, true⟩)], [(42, 1)]⟩)
    ∧ (⟨2, [(1, ⟨7, 42, 500, 0, 0, 0, true⟩)], [(42, 1)]⟩ : IdentityState).agents.lookup 1
        = some ⟨7, 42, 500, 0, 0, 0, true⟩
    ∧ registerAgent ⟨2, [(1, ⟨7, 42, 500, 0, 0, 0, true⟩)], [(42, 1)]⟩ 9 42
        = .error "Agent already registered" := by
  have h := registerAgent_spec mkIdentity 7 42 1
    ⟨2, [(1, ⟨7, 42, 500, 0, 0, 0, true⟩)], [(42, 1)]⟩ (by decide) rfl
  exact ⟨by decide, rfl, h.2.1, h.2.2.2.2 9⟩

/-! ### Theorems about the payment waterfall -/

/-- The platform fee never exceeds the payment when the fee rate respects the
constructor bound of 1000 basis points. -/
theorem platformFee_le_amount (rate amount : Nat) (hrate : rate ≤ 1000) :
    amount * rate / 10000 ≤ amount := by
  calc amount * rate / 10000 ≤ amount * 10000 / 10000 :=
        Nat.div_le_div_right (Nat.mul_le_mul_left amount (le_trans hrate (by norm_num)))
    _ = amount := Nat.mul_div_cancel amount (by norm_num)

/-- C1: for every successful `receivePayment` call (`amount > 0`) on an escrow
whose fee rate respects the constructor bound, the three distributed amounts
sum exactly to `amount`; the platform fee is `amount * feeRateBp / 10000`
(truncating); the lender amount is `min (amount - platformFee) remainingDebt`
when an active same-token loan exists and `0` otherwise; the borrower (agent)
amount is the remainder. -/
theorem receivePayment_waterfall_exact (s : EscrowState) (token amount : Nat)
    (d : Distribution) (s' : EscrowState)
    (hfee : s.platformFeeRate ≤ 1000)
    (h : receivePayment s token amount = .ok (d, s')) :
    d.platformFee + d.lenderAmount + d.borrowerAmount = amount
    ∧ d.platformFee = amount * s.platformFeeRate / 10000
    ∧ d.lenderAmount =
        (if s.currentLoan.isActive = true ∧ s.currentLoan.token = token then
          min (amount - d.platformFee)
            (s.currentLoan.totalRepayment - s.currentLoan.repaidAmount)
        else 0)
    ∧ d.borrowerAmount = amount - d.platformFee - d.lenderAmount := by
  have hle : amount * s.platformFeeRate / 10000 ≤ amount :=
    platformFee_le_amount s.platformFeeRate amount hfee
  have hd : d = (distributePayment s token amount).1 := by
    unfold receivePayment at h
    split at h
    · exact absurd h (by simp)
    · rw [Except.ok.injEq] at h
      exact (congrArg Prod.fst h).symm
  subst hd
  simp only [distributePayment]
  split_ifs <;> dsimp only at * <;> omega

/-- A payment to an escrow whose loan is inactive leaves the state unchanged
(the whole remainder goes to the borrower, the loan record is untouched). -/
theorem payStep_frozen (s : EscrowState) (p : Nat × Nat)
    (h : s.currentLoan.isActive = false) : payStep s p = s := by
  by_cases hp : p.2 = 0
  · simp [payStep, receivePayment, hp]
  · simp [payStep, receivePayment, hp, distributePayment, h]

/-- Once the loan is inactive, no sequence of payments changes the state. -/
theorem applyPayments_frozen (s : EscrowState) (ps : List (Nat × Nat))
    (h : s.currentLoan.isActive = false) : applyPayments s ps = s := by
  induction ps with
  | nil => rfl
  | cons p ps ih =>
      show applyPayments (payStep s p) ps = s
      rw [payStep_frozen s p h]
      exact ih

/-- `_distributePayment` preserves the loan lifecycle invariant, for loans
with a positive total repayment. -/
theorem distributePayment_keeps_inv (total : Nat) (hpos : 0 < total)
    (s : EscrowState) (token amount : Nat) (h : LoanInv total s) :
    LoanInv total (distributePayment s token amount).2 := by
  obtain ⟨h1, h2, h3⟩ := h
  by_cases hact : s.currentLoan.isActive = true
  · have hne : s.currentLoan.repaidAmount ≠ total := by
      intro he
      rw [h3.mpr he] at hact
      exact absurd hact (by simp)
    unfold LoanInv
    simp only [distributePayment]
    split_ifs <;> dsimp only at * <;> constructor <;> simp_all <;> omega
  · have hfalse : s.currentLoan.isActive = false := by
      cases hb : s.currentLoan.isActive
      · rfl
      · exact absurd hb hact
    unfold LoanInv
    simp only [distributePayment, hfalse]
    simp only [Bool.false_eq_true, false_and, if_false]
    exact ⟨h1, h2, h3⟩

/-- One `receivePayment` call preserves the loan lifecycle invariant. -/
theorem payStep_keeps_inv (total : Nat) (hpos : 0 < total)
    (s : EscrowState) (p : Nat × Nat) (h : LoanInv total s) :
    LoanInv total (payStep s p) := by
  by_cases hp : p.2 = 0
  · simpa [payStep, receivePayment, hp] using h
  · have heq : payStep s p = (distributePayment s p.1 p.2).2 := by
      simp [payStep, receivePayment, hp]
    rw [heq]
    exact distributePayment_keeps_inv total hpos s p.1 p.2 h

/-- Any sequence of payments preserves the loan lifecycle invariant. -/
theorem applyPayments_keeps_inv (total : Nat) (hpos : 0 < total)
    (s : EscrowState) (ps : List (Nat × Nat)) (h : LoanInv total s) :
    LoanInv total (applyPayments s ps) := by
  induction ps generalizing s with
  | nil => exact h
  | cons p ps ih =>
      exact ih (payStep s p) (payStep_keeps_inv total hpos s p h)

/-- A successful `registerLoan` installs a fresh loan satisfying the
lifecycle invariant (when its total repayment is positive). -/
theorem registerLoan_ok_inv (s s1 : EscrowState)
    (lenderAgent token principal totalRepayment : Nat) (hpos : 0 < totalRepayment)
    (h : registerLoan s lenderAgent token principal totalRepayment = .ok s1) :
    LoanInv totalRepayment s1 := by
  unfold registerLoan at h
  split_ifs at h <;> simp only [Except.ok.injEq] at h <;> try exact absurd h (by simp)
  subst h
  refine ⟨rfl, by dsimp only; omega, by dsimp only; simp; omega⟩

/-- C2 (amended: for loans with a positive `expectedRepayment`): after
registering a loan with total repayment `totalRepayment > 0` and any sequence
of payment distributions, `0 ≤ repaidAmount ≤ expectedRepayment` holds, the
stored total is unchanged, the loan is REPAID (`isActive = false`) exactly
when `repaidAmount = expectedRepayment`, and once that transition happens
further distributions leave the loan record unchanged, so it happens at most
once per registered loan. -/
theorem loan_lifecycle_invariant (s0 s1 : EscrowState)
    (lenderAgent token principal totalRepayment : Nat)
    (hreg : registerLoan s0 lenderAgent token principal totalRepayment = .ok s1)
    (hpos : 0 < totalRepayment) (ps : List (Nat × Nat)) :
    (0 ≤ (applyPayments s1 ps).currentLoan.repaidAmount
      ∧ (applyPayments s1 ps).currentLoan.repaidAmount
          ≤ (applyPayments s1 ps).currentLoan.totalRepayment)
    ∧ (applyPayments s1 ps).currentLoan.totalRepayment = totalRepayment
    ∧ ((applyPayments s1 ps).currentLoan.isActive = false
        ↔ (applyPayments s1 ps).currentLoan.repaidAmount = totalRepayment)
    ∧ ((applyPayments s1 ps).currentLoan.isActive = false →
        ∀ qs, applyPayments (applyPayments s1 ps) qs = applyPayments s1 ps) := by
  have hinv : LoanInv totalRepayment (applyPayments s1 ps) :=
    applyPayments_keeps_inv totalRepayment hpos s1 ps
      (registerLoan_ok_inv s0 s1 lenderAgent token principal totalRepayment hpos hreg)
  obtain ⟨h1, h2, h3⟩ := hinv
  refine ⟨⟨Nat.zero_le _, by omega⟩, h1, h3, ?_⟩
  intro hoff qs
  exact applyPayments_frozen _ qs hoff

/-- Witness for C2: a loan of 100 with total repayment 110 on a 5% escrow;
after one payment of 150 of the matching token the loan is exactly repaid
and inactive, and a further payment leaves it unchanged. -/
theorem loan_lifecycle_invariant_witness :
    registerLoan { platformFeeRate := 500, currentLoan := ActiveLoan.empty }
        1 1 100 110 = .ok ⟨500, ⟨1, 1, 100, 110, 0, true⟩⟩
    ∧ 0 < 110
    ∧ ((applyPayments ⟨500, ⟨1, 1, 100, 110, 0, true⟩⟩ [(1, 150)]).currentLoan.isActive = false
        ↔ (applyPayments ⟨500, ⟨1, 1, 100, 110, 0, true⟩⟩ [(1, 150)]).currentLoan.repaidAmount = 110)
    ∧ (applyPayments ⟨500, ⟨1, 1, 100, 110, 0, true⟩⟩ [(1, 150)]).currentLoan.repaidAmount = 110
    ∧ (applyPayments ⟨500, ⟨1, 1, 100, 110, 0, true⟩⟩ [(1, 150)]).currentLoan.isActive = false := by
  refine ⟨rfl, by norm_num, ?_, by decide, by decide⟩
  exact (loan_lifecycle_invariant { platformFeeRate := 500, currentLoan := ActiveLoan.empty }
    ⟨500, ⟨1, 1, 100, 110, 0, true⟩⟩ 1 1 100 110 rfl (by norm_num) [(1, 150)]).2.2.1

/-- Counterexample to C2 as stated: `registerLoan` accepts a loan with
`principal = 0` and `totalRepayment = 0`.  That loan starts with
`repaidAmount == expectedRepayment` (both 0), yet after a payment
distribution its status has not become REPAID: `isActive` is still `true`
(and stays `true` forever, since distributions take the zero-remaining-debt
branch).  So "status becomes REPAID iff repaidAmount == expectedRepayment"
fails for this loan. -/
theorem loan_repaid_iff_counterexample :
    registerLoan { platformFeeRate := 500, currentLoan := ActiveLoan.empty }
        1 1 0 0 = .ok ⟨500, ⟨1, 1, 0, 0, 0, true⟩⟩
    ∧ (applyPayments ⟨500, ⟨1, 1, 0, 0, 0, true⟩⟩ [(1, 100)]).currentLoan.repaidAmount
        = (applyPayments ⟨500, ⟨1, 1, 0, 0, 0, true⟩⟩ [(1, 100)]).currentLoan.totalRepayment
    ∧ (applyPayments ⟨500, ⟨1, 1, 0, 0, 0, true⟩⟩ [(1, 100)]).currentLoan.isActive = true :=
  ⟨rfl, rfl, rfl⟩

/-- C3: every reachable escrow state holds at most one active loan (the
contract stores a single `currentLoan` slot), and calling `registerLoan`
while a loan is active reverts with "Loan already active", leaving the
escrow's loan state unchanged. -/
theorem single_active_loan (s : EscrowState) (hs : EscrowReachable s) :
    activeLoanCount s ≤ 1
    ∧ (s.currentLoan.isActive = true →
        ∀ lenderAgent token principal totalRepayment,
          registerLoan s lenderAgent token principal totalRepayment
            = .error "Loan already active"
          ∧ tryRegisterLoan s lenderAgent token principal totalRepayment = s) := by
  refine ⟨by unfold activeLoanCount; split <;> omega, ?_⟩
  intro hact lenderAgent token principal totalRepayment
  have herr : registerLoan s lenderAgent token principal totalRepayment
      = .error "Loan already active" := by
    unfold registerLoan
    rw [if_pos hact]
  exact ⟨herr, by unfold tryRegisterLoan; rw [herr]⟩

/-- Witness for C3: a deployed escrow with a freshly registered (hence
active) loan is reachable, counts one active loan, and rejects a second
`registerLoan` without changing state. -/
theorem single_active_loan_witness :
    (⟨500, ⟨1, 1, 100, 110, 0, true⟩⟩ : EscrowState).currentLoan.isActive = true
    ∧ activeLoanCount ⟨500, ⟨1, 1, 100, 110, 0, true⟩⟩ ≤ 1
    ∧ registerLoan ⟨500, ⟨1, 1, 100, 110, 0, true⟩⟩ 2 1 50 60
        = .error "Loan already active"
    ∧ tryRegisterLoan ⟨500, ⟨1, 1, 100, 110, 0, true⟩⟩ 2 1 50 60
        = ⟨500, ⟨1, 1, 100, 110, 0, true⟩⟩ := by
  have hreach : EscrowReachable ⟨500, ⟨1, 1, 100, 110, 0, true⟩⟩ :=
    .step _ _ (.init 500 { platformFeeRate := 500, currentLoan := ActiveLoan.empty } rfl)
      (.register _ _ 1 1 100 110 rfl)
  have h := single_active_loan _ hreach
  exact ⟨rfl, h.1, (h.2 rfl 2 1 50 60).1, (h.2 rfl 2 1 50 60).2⟩

/-- Counterexample to C5 as stated: for a matched lender with interest rate
500 (basis points) and principal 100, the stored `expectedRepayment` is 105,
whereas `principal + principal × interestRate` with the stored rate would be
`100 + 100 × 500 = 50100`.  The source divides the rate by 10000. -/
theorem expectedRepayment_counterexample :
    (requestLoanAutomatically [⟨1, 100000, 500, 0, 100000, true⟩] 1 100 500).interestRate
      = some 500
    ∧ (requestLoanAutomatically [⟨1, 100000, 500, 0, 100000, true⟩] 1 100 500).expectedRepayment
      = some 105
    ∧ (105 : ℚ) ≠ 100 + 100 * 500 := by
  have hf : findCompatibleLender [⟨1, 100000, 500, 0, 100000, true⟩] 100 500
      = some ⟨1, 100000, 500, 0, 100000, true⟩ := by decide
  refine ⟨?_, ?_, by norm_num⟩ <;> unfold requestLoanAutomatically <;>
    rw [hf] <;> dsimp only <;> norm_num

/-- C5 (amended): for every loan matched to a lender at creation, the stored
`expectedRepayment` equals `principal + principal × interestRate / 10000`,
where `interestRate` is the matched lender's rate in basis points (the rate
is also stored on the loan, and the loan is REQUESTED). -/
theorem matched_loan_expected_repayment (lenders : List Lender) (agentId : Nat)
    (amount creditScore : ℚ) (l : Lender)
    (h : findCompatibleLender lenders amount creditScore = some l) :
    (requestLoanAutomatically lenders agentId amount creditScore).lenderAgentId
      = some l.id
    ∧ (requestLoanAutomatically lenders agentId amount creditScore).interestRate
      = some l.interestRate
    ∧ (requestLoanAutomatically lenders agentId amount creditScore).expectedRepayment
      = some (amount + amount * l.interestRate / 10000)
    ∧ (requestLoanAutomatically lenders agentId amount creditScore).status
      = .REQUESTED := by
  unfold requestLoanAutomatically
  rw [h]
  exact ⟨rfl, rfl, rfl, rfl⟩

/-- Witness for C5 (amended): the concrete matched loan above has
`expectedRepayment = 100 + 100 × 500 / 10000 = 105`. -/
theorem matched_loan_expected_repayment_witness :
    findCompatibleLender [⟨1, 100000, 500, 0, 100000, true⟩] 100 500
      = some ⟨1, 100000, 500, 0, 100000, true⟩
    ∧ (requestLoanAutomatically [⟨1, 100000, 500, 0, 100000, true⟩] 7 100 500).expectedRepayment
      = some (100 + 100 * (500 : ℚ) / 10000) := by
  have h := matched_loan_expected_repayment [⟨1, 100000, 500, 0, 100000, true⟩]
    7 100 500 ⟨1, 100000, 500, 0, 100000, true⟩ (by decide)
  exact ⟨by decide, h.2.2.1⟩

/-- C6: if some lender passes the compatibility filter
(`isActive ∧ minCreditScore ≤ creditScore ∧ amount ≤ maxLoanAmount ∧ amount ≤
availableFunds`), the loan is created REQUESTED with a compatible lender of
minimal interest rate, with lender id, rate and expected repayment all set;
if no lender passes, the call still succeeds and creates a PENDING loan with
no lender, no rate and no expected repayment. -/
theorem loan_matching_spec (lenders : List Lender) (agentId : Nat)
    (amount creditScore : ℚ) :
    ((∃ l ∈ lenders, lenderCompatible amount creditScore l = true) →
      ∃ l, findCompatibleLender lenders amount creditScore = some l
        ∧ l ∈ lenders
        ∧ lenderCompatible amount creditScore l = true
        ∧ (∀ l2 ∈ lenders, lenderCompatible amount creditScore l2 = true →
            l.interestRate ≤ l2.interestRate)
        ∧ (requestLoanAutomatically lenders agentId amount creditScore).lenderAgentId
            = some l.id
        ∧ (requestLoanAutomatically lenders agentId amount creditScore).interestRate
            = some l.interestRate
        ∧ (requestLoanAutomatically lenders agentId amount creditScore).expectedRepayment
            = some (amount + amount * l.interestRate / 10000)
        ∧ (requestLoanAutomatically lenders agentId amount creditScore).status
            = .REQUESTED)
    ∧ ((∀ l ∈ lenders, lenderCompatible amount creditScore l = false) →
        (requestLoanAutomatically lenders agentId amount creditScore).lenderAgentId = none
        ∧ (requestLoanAutomatically lenders agentId amount creditScore).interestRate = none
        ∧ (requestLoanAutomatically lenders agentId amount creditScore).expectedRepayment = none
        ∧ (requestLoanAutomatically lenders agentId amount creditScore).status = .PENDING) := by
  constructor
  · rintro ⟨l0, hl0, hc0⟩
    have hne : lenders.filter (lenderCompatible amount creditScore) ≠ [] := by
      intro hnil
      have hmem : l0 ∈ lenders.filter (lenderCompatible amount creditScore) :=
        List.mem_filter.mpr ⟨hl0, hc0⟩
      rw [hnil] at hmem
      exact absurd hmem (List.not_mem_nil l0)
    obtain ⟨m, hm⟩ : ∃ m, (lenders.filter (lenderCompatible amount creditScore)).argmin
        Lender.interestRate = some m := by
      cases harg : (lenders.filter (lenderCompatible amount creditScore)).argmin
          Lender.interestRate with
      | none => exact absurd (List.argmin_eq_none.mp harg) hne
      | some m => exact ⟨m, rfl⟩
    have hmm : m ∈ (lenders.filter (lenderCompatible amount creditScore)).argmin
        Lender.interestRate := Option.mem_def.mpr hm
    have hmem : m ∈ lenders.filter (lenderCompatible amount creditScore) :=
      List.argmin_mem hmm
    have hfm : findCompatibleLender lenders amount creditScore = some m := hm
    refine ⟨m, hfm, (List.mem_filter.mp hmem).1, (List.mem_filter.mp hmem).2,
      ?_, ?_, ?_, ?_, ?_⟩
    · intro l2 hl2 hc2
      exact List.le_of_mem_argmin (List.mem_filter.mpr ⟨hl2, hc2⟩) hmm
    all_goals unfold requestLoanAutomatically
    all_goals rw [hfm]
  · intro hnone
    have hnil : lenders.filter (lenderCompatible amount creditScore) = [] := by
      rw [List.filter_eq_nil_iff]
      intro l hl
      rw [hnone l hl]
      simp
    have hfm : findCompatibleLender lenders amount creditScore = none := by
      unfold findCompatibleLender
      rw [hnil]
      exact List.argmin_nil Lender.interestRate
    unfold requestLoanAutomatically
    rw [hfm]
    exact ⟨rfl, rfl, rfl, rfl⟩

/-- Witness for C6: among two compatible lenders at 700bp and 300bp the 300bp
one is matched (REQUESTED); with a single lender whose `maxLoanAmount` is
below the request (Scenario B) the loan is created PENDING with no lender. -/
theorem loan_matching_spec_witness :
    (∃ l ∈ [(⟨1, 100000, 700, 0, 100000, true⟩ : Lender),
        ⟨2, 100000, 300, 0, 100000, true⟩],
      lenderCompatible 100 500 l = true)
    ∧ (∃ l, findCompatibleLender [(⟨1, 100000, 700, 0, 100000, true⟩ : Lender),
          ⟨2, 100000, 300, 0, 100000, true⟩] 100 500 = some l
        ∧ (∀ l2 ∈ [(⟨1, 100000, 700, 0, 100000, true⟩ : Lender),
            ⟨2, 100000, 300, 0, 100000, true⟩],
            lenderCompatible 100 500 l2 = true → l.interestRate ≤ l2.interestRate)
        ∧ (requestLoanAutomatically [(⟨1, 100000, 700, 0, 100000, true⟩ : Lender),
            ⟨2, 100000, 300, 0, 100000, true⟩] 9 100 500).status = .REQUESTED)
    ∧ (∀ l ∈ [(⟨3, 50, 300, 0, 100000, true⟩ : Lender)],
        lenderCompatible 100 500 l = false)
    ∧ (requestLoanAutomatically [(⟨3, 50, 300, 0, 100000, true⟩ : Lender)]
        9 100 500).lenderAgentId = none
    ∧ (requestLoanAutomatically [(⟨3, 50, 300, 0, 100000, true⟩ : Lender)]
        9 100 500).status = .PENDING := by
  have hA := (loan_matching_spec [(⟨1, 100000, 700, 0, 100000, true⟩ : Lender),
    ⟨2, 100000, 300, 0, 100000, true⟩] 9 100 500).1
    ⟨⟨2, 100000, 300, 0, 100000, true⟩, by simp, by decide⟩
  obtain ⟨l, hf, _, _, hmin, _, _, _, hstat⟩ := hA
  have hB := (loan_matching_spec [(⟨3, 50, 300, 0, 100000, true⟩ : Lender)]
    9 100 500).2 (by intro l hl; simp at hl; subst hl; decide)
  exact ⟨⟨⟨2, 100000, 300, 0, 100000, true⟩, by simp, by decide⟩,
    ⟨l, hf, hmin, hstat⟩, by intro l2 hl2; simp at hl2; subst hl2; decide,
    hB.1, hB.2.2.2⟩

/-- For a `ScanResult` assembled by a scanner, the rejection flag tested by
`areScansAcceptable` (`severity == high && !passed`) is exactly "some finding
is high". -/
theorem scanResult_flag (t : String) (findings : List ScanFinding) :
    ((mkScanResult t findings).severity == Severity.high
      && !(mkScanResult t findings).passed)
      = findings.any (fun f => f.severity == .high) := by
  unfold mkScanResult getOverallSeverity
  dsimp only
  by_cases h : findings.any (fun f => f.severity == .high) = true
  · simp [h]
  · simp only [Bool.not_eq_true] at h
    rw [h]
    split_ifs <;> simp

/-- `List.any` over a mapped list tests the composed predicate. -/
theorem any_map_comp {α β : Type} (f : α → β) (p : β → Bool) (l : List α) :
    (l.map f).any p = l.any (p ∘ f) := by
  induction l with
  | nil => rfl
  | cons a l ih => simp [List.any_cons, ih]

/-- `areScansAcceptable` on scanner-assembled results fails exactly when some
scanner reported a high-severity finding. -/
theorem areScansAcceptable_map (t : String) (css : List (List ScanFinding)) :
    areScansAcceptable (css.map (mkScanResult t))
      = !(css.any (fun fs => fs.any (fun f => f.severity == .high))) := by
  have hfun : ((fun r => r.severity == Severity.high && !r.passed) ∘ mkScanResult t)
      = fun fs => fs.any (fun f => f.severity == .high) := by
    funext fs
    exact scanResult_flag t fs
  show (!(css.map (mkScanResult t)).any fun r => r.severity == Severity.high && !r.passed)
      = !(css.any fun fs => fs.any fun f => f.severity == .high)
  rw [any_map_comp, hfun]

/-- C7: if any code scanner reports a high-severity finding, `processAgent`
sets the status to SCAN_FAILED and halts after the scan stage (no
registration, code modification or deployment stage is entered); if no
high-severity finding is reported, the pipeline enters the registration
stage. -/
theorem scan_gate_halts (codeScanFindings : List (List ScanFinding))
    (registerOk modifyOk deployOk : Bool) (containerFindings : List ScanFinding) :
    ((∃ fs ∈ codeScanFindings, ∃ f ∈ fs, f.severity = .high) →
      (processAgent codeScanFindings registerOk modifyOk deployOk containerFindings).1
          = .SCAN_FAILED
      ∧ (processAgent codeScanFindings registerOk modifyOk deployOk containerFindings).2
          = [.scanStage]
      ∧ PipelineStage.registerStage
          ∉ (processAgent codeScanFindings registerOk modifyOk deployOk containerFindings).2
      ∧ PipelineStage.modifyStage
          ∉ (processAgent codeScanFindings registerOk modifyOk deployOk containerFindings).2
      ∧ PipelineStage.deployStage
          ∉ (processAgent codeScanFindings registerOk modifyOk deployOk containerFindings).2)
    ∧ ((∀ fs ∈ codeScanFindings, ∀ f ∈ fs, f.severity ≠ .high) →
      PipelineStage.registerStage
        ∈ (processAgent codeScanFindings registerOk modifyOk deployOk containerFindings).2) := by
  have hacc := areScansAcceptable_map "code" codeScanFindings
  constructor
  · rintro ⟨fs, hfs, f, hf, hsev⟩
    have hany : codeScanFindings.any (fun fs => fs.any (fun f => f.severity == .high))
        = true :=
      List.any_eq_true.mpr ⟨fs, hfs, List.any_eq_true.mpr ⟨f, hf, by simp [hsev]⟩⟩
    have hfail : areScansAcceptable (codeScanFindings.map (mkScanResult "code"))
        = false := by
      rw [hacc, hany]
      rfl
    have hrun : processAgent codeScanFindings registerOk modifyOk deployOk containerFindings
        = (.SCAN_FAILED, [.scanStage]) := by
      simp only [processAgent]
      rw [hfail]
      simp
    rw [hrun]
    exact ⟨rfl, rfl, by decide, by decide, by decide⟩
  · intro hnone
    have hany : codeScanFindings.any (fun fs => fs.any (fun f => f.severity == .high))
        = false := by
      rw [List.any_eq_false]
      intro fs hfs
      rw [Bool.not_eq_true, List.any_eq_false]
      intro f hf
      simp only [Bool.not_eq_true, beq_eq_false_iff_ne]
      exact hnone fs hfs f hf
    have hok : areScansAcceptable (codeScanFindings.map (mkScanResult "code"))
        = true := by
      rw [hacc, hany]
      rfl
    simp only [processAgent]
    rw [hok]
    split_ifs <;> simp_all

/-- Witness for C7: a single high finding halts the pipeline at SCAN_FAILED;
with only a low finding the registration stage is entered. -/
theorem scan_gate_halts_witness :
    (processAgent [[⟨.high⟩]] true true true []).1 = .SCAN_FAILED
    ∧ (processAgent [[⟨.high⟩]] true true true []).2 = [.scanStage]
    ∧ PipelineStage.registerStage ∈ (processAgent [[], [⟨.low⟩]] true true true []).2 := by
  have h1 := (scan_gate_halts [[⟨.high⟩]] true true true []).1
    ⟨[⟨.high⟩], by simp, ⟨.high⟩, by simp, rfl⟩
  have h2 := (scan_gate_halts [[], [⟨.low⟩]] true true true []).2 (by decide)
  exact ⟨h1.1, h1.2.1, h2⟩

/-- Counterexample to C8 as stated: with expected payment 5 and minimum
threshold 10 (so `expectedAmount < minimumThreshold`), commitment generation
succeeds — `generateTaskProof` runs the simplified hash path (`useRealZKProof
= false`), which performs no threshold comparison — and on the task path a
task whose amount (−10) is below its own minimum threshold (0.8 × amount =
−8) ends FUNDED, not FAILED. -/
theorem proof_threshold_counterexample :
    (5 : ℚ) < 10
    ∧ (generateTaskProof "escrow" 5 10).verifiable = true
    ∧ (generateTaskProof "escrow" 5 10).inputs.expectedPayment = 5000000
    ∧ (generateTaskProof "escrow" 5 10).inputs.minLoanAmount = 10000000
    ∧ ((-10 : ℚ)) < (-10 : ℚ) * (8 / 10)
    ∧ processTaskAfterCreation (-10) 10 true = .FUNDED := by
  refine ⟨by norm_num, rfl, ?_, ?_, by norm_num, ?_⟩
  · show ⌊(5 : ℚ) * 1000000⌋ = 5000000
    norm_num
  · show ⌊(10 : ℚ) * 1000000⌋ = 10000000
    norm_num
  · unfold processTaskAfterCreation
    rw [if_neg (by norm_num)]

/-- C8 (amended): the threshold constraint `expectedAmount ≥
minimumThreshold` is embedded only in the circom circuit, which the backend
does not use (`useRealZKProof = false`); the simplified hash-based commitment
generation that actually runs is total — it succeeds for every input,
including inputs violating the threshold — and on the processing path a task
is set FAILED only when the loan request throws, never by the threshold. -/
theorem proof_generation_no_threshold_check :
    useRealZKProof = false
    ∧ (∀ ep ml : ℤ, taskProofCircuitAccepts ep ml = true ↔ ml ≤ ep)
    ∧ (∀ addr : String, ∀ ep ml : ℚ,
        (generateTaskProof addr ep ml).verifiable = true
        ∧ (generateTaskProof addr ep ml).publicExpectedPayment = ep
        ∧ (generateTaskProof addr ep ml).publicMinLoanAmount = ml)
    ∧ (∀ amount loanThreshold : ℚ,
        processTaskAfterCreation amount loanThreshold true ≠ .FAILED) := by
  refine ⟨rfl, fun ep ml => by simp [taskProofCircuitAccepts],
    fun addr ep ml => ⟨rfl, rfl, rfl⟩, ?_⟩
  intro amount loanThreshold
  unfold processTaskAfterCreation
  split_ifs <;> simp_all

/-- Witness for C8 (amended): the circuit rejects 5 < 10 while the simplified
path still emits a commitment, and a concrete task does not fail. -/
theorem proof_generation_no_threshold_check_witness :
    taskProofCircuitAccepts 5000000 10000000 = false
    ∧ (generateTaskProof "escrow" 15 10).verifiable = true
    ∧ processTaskAfterCreation 15 10 true ≠ .FAILED := by
  have h := proof_generation_no_threshold_check
  exact ⟨by decide, (h.2.2.1 "escrow" 15 10).1, h.2.2.2 15 10⟩

/-- Counterexample to C9 as stated: `markTaskAsPaid` on a PENDING task sets
it directly to PAID; PENDING → PAID is not an edge of the claimed transition
graph, and the task was never FUNDED. -/
theorem task_transition_counterexample :
    markTaskAsPaid .PENDING = .PAID
    ∧ specAllowedTransition .PENDING .PAID = false
    ∧ TaskStatus.PENDING ≠ TaskStatus.FUNDED := by
  decide

/-- C9 (amended): the manual operations `updateTaskStatus`, `completeTask`
and `markTaskAsPaid` write their target status unconditionally — no
transition validation exists, so a task can reach PAID without having been
FUNDED — while the asynchronous processing path (`generateZKProofAndProcessTask`
from PENDING, and `onLoanDisbursed` from AWAITING_FUNDS) only produces
transitions allowed by the claimed graph. -/
theorem task_status_operations_unrestricted :
    (∀ s t : TaskStatus, updateTaskStatus s t = t)
    ∧ (∀ s : TaskStatus, completeTask s = .COMPLETED)
    ∧ (∀ s : TaskStatus, markTaskAsPaid s = .PAID)
    ∧ (∀ (amount loanThreshold : ℚ) (ok : Bool),
        specAllowedTransition .PENDING
          (processTaskAfterCreation amount loanThreshold ok) = true)
    ∧ specAllowedTransition .AWAITING_FUNDS (onLoanDisbursed .AWAITING_FUNDS) = true := by
  refine ⟨fun s t => rfl, fun s => rfl, fun s => rfl, ?_, rfl⟩
  intro amount loanThreshold ok
  unfold processTaskAfterCreation
  split_ifs <;> decide

/-- Witness for C9 (amended): concrete instances of the unrestricted writes
and of a graph-respecting asynchronous transition (Scenario E: amount 8,
threshold 10 ⇒ FUNDED). -/
theorem task_status_operations_unrestricted_witness :
    updateTaskStatus .PENDING .IN_PROGRESS = .IN_PROGRESS
    ∧ markTaskAsPaid .COMPLETED = .PAID
    ∧ processTaskAfterCreation 8 10 true = .FUNDED
    ∧ specAllowedTransition .PENDING (processTaskAfterCreation 8 10 true) = true := by
  have h := task_status_operations_unrestricted
  refine ⟨h.1 .PENDING .IN_PROGRESS, h.2.2.1 .COMPLETED, ?_, h.2.2.2.1 8 10 true⟩
  unfold processTaskAfterCreation
  rw [if_neg (by norm_num)]

/-- Witness for C1 (Scenario A of the spec): `amount = 150`, `feeRateBp = 500`,
active loan with remaining debt 103 ⇒ fee 7, lender 103, agent 40. -/
theorem receivePayment_waterfall_exact_witness :
    (⟨500, ⟨1, 1, 100, 103, 0, true⟩⟩ : EscrowState).platformFeeRate ≤ 1000
    ∧ (let s : EscrowState := ⟨500, ⟨1, 1, 100, 103, 0, true⟩⟩
       let r := distributePayment s 1 150
       receivePayment s 1 150 = .ok r
       ∧ r.1.platformFee + r.1.lenderAmount + r.1.borrowerAmount = 150
       ∧ r.1.platformFee = 7 ∧ r.1.lenderAmount = 103 ∧ r.1.borrowerAmount = 40) := by
  refine ⟨by norm_num, rfl, ?_, by decide, by decide, by decide⟩
  exact (receivePayment_waterfall_exact ⟨500, ⟨1, 1, 100, 103, 0, true⟩⟩ 1 150
    (distributePayment ⟨500, ⟨1, 1, 100, 103, 0, true⟩⟩ 1 150).1
    (distributePayment ⟨500, ⟨1, 1, 100, 103, 0, true⟩⟩ 1 150).2
    (by norm_num) rfl).1
